import Mathlib

/-!
Verification development for `src/services/monitorService.ts` of the
homework-focus-guardian repository.

The source is a thin client wrapper: a lazily memoized client accessor
(`getAIClient`) reading the credential `process.env.API_KEY`, and an
asynchronous `analyzeFrame` that validates a base64 image string, strips an
optional data-URI header, issues one request to the external generative-AI
service, parses the JSON response text, and maps failures into an
ERROR-status result value.

Embedding choices:
  * The process environment is an explicit `Env` value; `process.env.API_KEY`
    may be absent (`none`) or any string (JS treats the empty string as falsy,
    exactly like absence, via the `!apiKey` check).
  * The memoized module-level variable `ai` is explicit state (`ProcState`);
    calls thread the state.
  * The external network call `client.models.generateContent` is an oracle
    (`NetOutcome`): it either throws a JS error or yields a response whose
    `.text` is an optional string.  `JSON.parse` is likewise an oracle
    function `String → Except JsError Json`, since both live outside this
    repository.
  * JS runtime values returned by the function are modelled as `Json`
    (the `as AnalysisResult` cast in the source performs no check, so the
    parse path can return arbitrary JSON at runtime).
  * `analyzeFrame` returns an instrumented `RunResult`: the outcome
    (`Except JsError Json`, where `.error` models a raised/re-raised error),
    the post-call memoization state, and the request passed to the service,
    when one was issued at all.
-/

/-- A JavaScript error value as observed by the catch block: only its
`message` property is consulted, and it may be `undefined`. -/
structure JsError where
  message : Option String
deriving DecidableEq

/-- A JSON value, the runtime result type (numbers as rationals). -/
inductive Json where
  | null : Json
  | bool (b : Bool) : Json
  | num (q : ℚ) : Json
  | str (s : String) : Json
  | arr (elems : List Json) : Json
  | obj (fields : List (String × Json)) : Json

/-- Field lookup on a JSON object (first binding wins), used only to state
properties of returned results. -/
def Json.getField (j : Json) (k : String) : Option Json :=
  match j with
  | .obj fields => (fields.find? (fun kv => kv.1 = k)).map (fun kv => kv.2)
  | _ => none

/-- Modelled from the spec: the `FocusStatus` enum lives in the missing
`src/types.ts`; the spec names its four members FOCUSED, DISTRACTED, ABSENT
and ERROR, serialized as those strings. -/
inductive FocusStatus where
  | FOCUSED | DISTRACTED | ABSENT | ERROR
deriving DecidableEq

/-- Modelled from the spec: the string value of each `FocusStatus` member. -/
def FocusStatus.toStr : FocusStatus → String
  | .FOCUSED => "FOCUSED"
  | .DISTRACTED => "DISTRACTED"
  | .ABSENT => "ABSENT"
  | .ERROR => "ERROR"

/-- The process environment: `process.env.API_KEY` (absent or any string). -/
structure Env where
  apiKey : Option String
deriving DecidableEq

/-- The external client handle `new GoogleGenAI({apiKey})`: opaque beyond the
credential it was constructed with. -/
structure GoogleGenAI where
  apiKey : String
deriving DecidableEq

/-- The module-level mutable state: `let ai: GoogleGenAI | null = null`. -/
structure ProcState where
  ai : Option GoogleGenAI
deriving DecidableEq

/-- JS falsiness of an optional string: `undefined` and `""` are falsy. -/
def isFalsyStr : Option String → Bool
  | none => true
  | some s => s = ""

/-- The error thrown by `getAIClient` when the credential is missing. -/
def apiKeyMissingError : JsError :=
  ⟨some ("API Key is missing. Please check Vercel settings.")⟩

/-- `getAIClient` from the source: return the cached handle if present;
otherwise read `process.env.API_KEY`, throw if falsy, else construct and
cache a client. -/
def getAIClient (env : Env) (st : ProcState) :
    Except JsError (GoogleGenAI × ProcState) :=
  match st.ai with
  | some c => .ok (c, st)
  | none =>
    match env.apiKey with
    | none => .error apiKeyMissingError
    | some k =>
      if k = "" then .error apiKeyMissingError
      else
        let c : GoogleGenAI := ⟨k⟩
        .ok (c, ⟨some c⟩)

/-- The `Type` enum of the external schema DSL (members used here). -/
inductive GTy where
  | OBJECT | STRING | NUMBER
deriving DecidableEq

/-- One property of the declared response schema. -/
structure FieldSchema where
  type : GTy
  enumVals : List String
  description : String
deriving DecidableEq

/-- The declared object schema `responseSchema`. -/
structure ObjectSchema where
  type : GTy
  properties : List (String × FieldSchema)
  required : List String
deriving DecidableEq

/-- `responseSchema` from the source. -/
def responseSchema : ObjectSchema :=
  { type := .OBJECT
    properties :=
      [("status",
        { type := .STRING
          enumVals := [FocusStatus.FOCUSED.toStr, FocusStatus.DISTRACTED.toStr,
                       FocusStatus.ABSENT.toStr]
          description := "The assessed state of the student." }),
       ("message",
        { type := .STRING
          enumVals := []
          description := "A short, encouraging or correcting message in Chinese (Mandarin) suitable for a child." }),
       ("confidence",
        { type := .NUMBER
          enumVals := []
          description := "Confidence level between 0 and 1." })]
    required := ["status", "message", "confidence"] }

/-- The fixed prompt text of the request (the template literal, verbatim,
trailing spaces and twelve-space continuation indentation included). -/
def promptText : String :=
  "Analyze this image of a student doing homework. \n            Determine if they are FOCUSED (looking at paper/book, writing, reading), \n            DISTRACTED (looking away, playing with toys, sleeping, using phone), \n            or ABSENT (empty chair).\n            Provide a short voice message text in Chinese.\n            If FOCUSED, say something encouraging like \"很棒，继续保持\".\n            If DISTRACTED, say something gentle like \"请专心写作业哦\".\n            If ABSENT, say \"人去哪里了\"."

/-- The request passed to `client.models.generateContent`. -/
structure GenerateRequest where
  model : String
  inlineMimeType : String
  inlineData : String
  text : String
  responseMimeType : String
  schema : ObjectSchema
  systemInstruction : String
deriving DecidableEq

/-- The request as built by `analyzeFrame` from the cleaned payload. -/
def buildRequest (cleanedData : String) : GenerateRequest :=
  { model := "gemini-2.5-flash"
    inlineMimeType := "image/jpeg"
    inlineData := cleanedData
    text := promptText
    responseMimeType := "application/json"
    schema := responseSchema
    systemInstruction := "You are a homework monitoring assistant. Be strict but kind." }

/-- The three data-URI headers matched by the anchored regex
`^data:image\x5c/(png|jpeg|jpg);base64,` (alternation order preserved). -/
def dataUriHeaders : List String :=
  ["data:image/png;base64,", "data:image/jpeg;base64,", "data:image/jpg;base64,"]

/-- `const cleanBase64 = base64Image.replace(regex, "")`: the regex is
anchored and non-global, so it removes at most one leading header. -/
def cleanBase64 (s : String) : String :=
  match dataUriHeaders.find? (fun p => p.data.isPrefixOf s.data) with
  | some p => String.mk (s.data.drop p.data.length)
  | none => s

/-- The outcome of the external `generateContent` call: it throws, or it
returns a response whose `.text` may be absent. -/
inductive NetOutcome where
  | throw (e : JsError) : NetOutcome
  | reply (text : Option String) : NetOutcome
deriving DecidableEq

/-- The error thrown on input validation failure. -/
def invalidFrameError : JsError := ⟨some ("Invalid frame captured (empty data)")⟩

/-- The error thrown when the response carries no text. -/
def noResponseError : JsError := ⟨some ("No response from AI")⟩

/-- The fallback message used when the caught error has a falsy message. -/
def fallbackMessage : String := "连接 AI 失败"

/-- `error.message || "连接 AI 失败"`. -/
def errMessageOrFallback (e : JsError) : String :=
  match e.message with
  | none => fallbackMessage
  | some s => if s = "" then fallbackMessage else s

/-- The structured error result built by the catch block. -/
def errorResult (e : JsError) : Json :=
  .obj [("status", .str FocusStatus.ERROR.toStr),
        ("message", .str (errMessageOrFallback e)),
        ("confidence", .num 0)]

/-- The validation condition of step 1:
`!base64Image || base64Image === "data:," || base64Image.length < 100`
(the only falsy string is the empty one). -/
def isInvalidFrame (base64Image : String) : Bool :=
  base64Image == "" || base64Image == "data:," || decide (base64Image.length < 100)

/-- The body of the `try` block: acquire the client, issue the request,
check the response text, parse it.  Yields the outcome, the post-state and
the request passed to the service (`none` if the call never happened). -/
def tryBody (parse : String → Except JsError Json) (env : Env)
    (net : NetOutcome) (st : ProcState) (cleanedData : String) :
    Except JsError Json × ProcState × Option GenerateRequest :=
  match getAIClient env st with
  | .error e => (.error e, st, none)
  | .ok (_, st1) =>
    let req := buildRequest cleanedData
    match net with
    | .throw e => (.error e, st1, some req)
    | .reply text =>
      if isFalsyStr text then (.error noResponseError, st1, some req)
      else
        match parse (text.getD ("")) with
        | .error e => (.error e, st1, some req)
        | .ok v => (.ok v, st1, some req)

/-- The instrumented observation of one `analyzeFrame` call. -/
structure RunResult where
  outcome : Except JsError Json
  state : ProcState
  sent : Option GenerateRequest

/-- `analyzeFrame` from the source: validate (outside the `try`), clean the
payload, run the `try` body, and in the catch block re-raise exactly the
errors whose message equals the invalid-frame message, converting every
other error into an ERROR-status result value. -/
def analyzeFrame (parse : String → Except JsError Json) (env : Env)
    (net : NetOutcome) (st : ProcState) (base64Image : String) : RunResult :=
  if isInvalidFrame base64Image then
    { outcome := .error invalidFrameError, state := st, sent := none }
  else
    let cleanedData := cleanBase64 base64Image
    match tryBody parse env net st cleanedData with
    | (.ok v, st1, req) => { outcome := .ok v, state := st1, sent := req }
    | (.error e, st1, req) =>
      if e.message = some ("Invalid frame captured (empty data)") then
        { outcome := .error e, state := st1, sent := req }
      else
        { outcome := .ok (errorResult e), state := st1, sent := req }

/-- The inputs of one `analyzeFrame` call, for sequencing whole calls. -/
structure CallSpec where
  parse : String → Except JsError Json
  env : Env
  net : NetOutcome
  input : String

/-- Run a sequence of `analyzeFrame` calls, threading the memoized-client
state, and return the final state. -/
def runCalls (calls : List CallSpec) (st : ProcState) : ProcState :=
  match calls with
  | [] => st
  | c :: rest => runCalls rest (analyzeFrame c.parse c.env c.net st c.input).state

/-- Follows the spec's words (data model of `AnalysisResult`): the result has
a `status` among FOCUSED, DISTRACTED, ABSENT, ERROR and a numeric
`confidence` in the closed interval [0,1]. -/
def specResultWellFormed (j : Json) : Prop :=
  (∃ s, j.getField ("status") = some (.str s) ∧
        s ∈ ["FOCUSED", "DISTRACTED", "ABSENT", "ERROR"]) ∧
  (∃ q, j.getField ("confidence") = some (.num q) ∧ 0 ≤ q ∧ q ≤ 1)

/-! ### Shared helper definitions and lemmas -/

/-- A concrete valid image input: one hundred characters, no data-URI header. -/
def sampleImage : String :=
  "AAAAAAAAAAAAAAAAAAAAAAAAAAAAAAAAAAAAAAAAAAAAAAAAAAAAAAAAAAAAAAAAAAAAAAAAAAAAAAAAAAAAAAAAAAAAAAAAAAAA"

theorem sampleImage_valid : isInvalidFrame sampleImage = false := by decide

theorem append_mk (a : String) (l : List Char) :
    a ++ String.mk l = String.mk (a.data ++ l) := by
  apply String.ext
  rw [String.data_append]

theorem pngHeaderData : "data:image/png;base64,".data =
    ['d','a','t','a',':','i','m','a','g','e','/','p','n','g',
     ';','b','a','s','e','6','4',','] := rfl

theorem jpegHeaderData : "data:image/jpeg;base64,".data =
    ['d','a','t','a',':','i','m','a','g','e','/','j','p','e','g',
     ';','b','a','s','e','6','4',','] := rfl

theorem jpgHeaderData : "data:image/jpg;base64,".data =
    ['d','a','t','a',':','i','m','a','g','e','/','j','p','g',
     ';','b','a','s','e','6','4',','] := rfl

theorem cleanBase64_png (rest : String) :
    cleanBase64 ("data:image/png;base64," ++ rest) = rest := by
  obtain ⟨l⟩ := rest
  rw [append_mk]
  simp [cleanBase64, dataUriHeaders, List.find?,
        pngHeaderData, jpegHeaderData, jpgHeaderData, List.isPrefixOf]

theorem cleanBase64_jpeg (rest : String) :
    cleanBase64 ("data:image/jpeg;base64," ++ rest) = rest := by
  obtain ⟨l⟩ := rest
  rw [append_mk]
  simp [cleanBase64, dataUriHeaders, List.find?,
        pngHeaderData, jpegHeaderData, jpgHeaderData, List.isPrefixOf]

theorem cleanBase64_jpg (rest : String) :
    cleanBase64 ("data:image/jpg;base64," ++ rest) = rest := by
  obtain ⟨l⟩ := rest
  rw [append_mk]
  simp [cleanBase64, dataUriHeaders, List.find?,
        pngHeaderData, jpegHeaderData, jpgHeaderData, List.isPrefixOf]

theorem cleanBase64_no_header (s : String)
    (h : ∀ p ∈ dataUriHeaders, p.data.isPrefixOf s.data = false) :
    cleanBase64 s = s := by
  unfold cleanBase64
  have hfind : dataUriHeaders.find? (fun p => p.data.isPrefixOf s.data) = none := by
    rw [List.find?_eq_none]
    intro p hp
    simp [h p hp]
  rw [hfind]

theorem getAIClient_cached (env : Env) (st : ProcState) (c : GoogleGenAI)
    (h : st.ai = some c) : getAIClient env st = .ok (c, st) := by
  unfold getAIClient
  rw [h]

theorem getAIClient_noKey (env : Env) (hkey : isFalsyStr env.apiKey = true) :
    getAIClient env ⟨none⟩ = .error apiKeyMissingError := by
  obtain ⟨k⟩ := env
  match k with
  | none => rfl
  | some s =>
    simp only [isFalsyStr, decide_eq_true_eq] at hkey
    simp [getAIClient, hkey]

theorem tryBody_client_error (parse : String → Except JsError Json) (env : Env)
    (net : NetOutcome) (st : ProcState) (d : String) (e : JsError)
    (hc : getAIClient env st = .error e) :
    tryBody parse env net st d = (.error e, st, none) := by
  unfold tryBody
  rw [hc]

theorem tryBody_net_throw (parse : String → Except JsError Json) (env : Env)
    (st st1 : ProcState) (c : GoogleGenAI) (d : String) (e : JsError)
    (hc : getAIClient env st = .ok (c, st1)) :
    tryBody parse env (.throw e) st d = (.error e, st1, some (buildRequest d)) := by
  unfold tryBody
  rw [hc]

theorem tryBody_reply_falsy (parse : String → Except JsError Json) (env : Env)
    (st st1 : ProcState) (c : GoogleGenAI) (d : String) (t : Option String)
    (hc : getAIClient env st = .ok (c, st1)) (ht : isFalsyStr t = true) :
    tryBody parse env (.reply t) st d = (.error noResponseError, st1, some (buildRequest d)) := by
  unfold tryBody
  rw [hc]
  simp [ht]

theorem tryBody_parse (parse : String → Except JsError Json) (env : Env)
    (st st1 : ProcState) (c : GoogleGenAI) (d t : String)
    (hc : getAIClient env st = .ok (c, st1)) (ht : t ≠ "") :
    tryBody parse env (.reply (some t)) st d = (parse t, st1, some (buildRequest d)) := by
  unfold tryBody
  rw [hc]
  have hf : isFalsyStr (some t) = false := by
    simp [isFalsyStr, ht]
  simp only [hf, Bool.false_eq_true, if_false, Option.getD_some]
  match hp : parse t with
  | .error e => rfl
  | .ok v => rfl

theorem analyzeFrame_tryBody_ok (parse : String → Except JsError Json) (env : Env)
    (net : NetOutcome) (st st1 : ProcState) (s : String) (v : Json)
    (req : Option GenerateRequest)
    (hv : isInvalidFrame s = false)
    (htb : tryBody parse env net st (cleanBase64 s) = (.ok v, st1, req)) :
    analyzeFrame parse env net st s = ⟨.ok v, st1, req⟩ := by
  unfold analyzeFrame
  rw [hv]
  simp only [Bool.false_eq_true, if_false, htb]

theorem analyzeFrame_tryBody_error_converted (parse : String → Except JsError Json)
    (env : Env) (net : NetOutcome) (st st1 : ProcState) (s : String) (e : JsError)
    (req : Option GenerateRequest)
    (hv : isInvalidFrame s = false)
    (htb : tryBody parse env net st (cleanBase64 s) = (.error e, st1, req))
    (hm : e.message ≠ some ("Invalid frame captured (empty data)")) :
    analyzeFrame parse env net st s = ⟨.ok (errorResult e), st1, req⟩ := by
  unfold analyzeFrame
  rw [hv]
  simp only [Bool.false_eq_true, if_false, htb]
  rw [if_neg hm]

theorem analyzeFrame_tryBody_error_rethrown (parse : String → Except JsError Json)
    (env : Env) (net : NetOutcome) (st st1 : ProcState) (s : String) (e : JsError)
    (req : Option GenerateRequest)
    (hv : isInvalidFrame s = false)
    (htb : tryBody parse env net st (cleanBase64 s) = (.error e, st1, req))
    (hm : e.message = some ("Invalid frame captured (empty data)")) :
    analyzeFrame parse env net st s = ⟨.error e, st1, req⟩ := by
  unfold analyzeFrame
  rw [hv]
  simp only [Bool.false_eq_true, if_false, htb]
  rw [if_pos hm]

theorem analyzeFrame_noKey_run (parse : String → Except JsError Json) (env : Env)
    (net : NetOutcome) (s : String)
    (hkey : isFalsyStr env.apiKey = true) (hv : isInvalidFrame s = false) :
    analyzeFrame parse env net ⟨none⟩ s =
      ⟨.ok (errorResult apiKeyMissingError), ⟨none⟩, none⟩ := by
  refine analyzeFrame_tryBody_error_converted parse env net ⟨none⟩ ⟨none⟩ s
    apiKeyMissingError none hv ?_ ?_
  · exact tryBody_client_error _ _ _ _ _ _ (getAIClient_noKey env hkey)
  · intro h
    simp [apiKeyMissingError] at h

theorem errorResult_status (e : JsError) :
    (errorResult e).getField ("status") = some (.str ("ERROR")) := rfl

theorem errorResult_message (e : JsError) :
    (errorResult e).getField ("message") = some (.str (errMessageOrFallback e)) := rfl

theorem errorResult_confidence (e : JsError) :
    (errorResult e).getField ("confidence") = some (.num 0) := rfl

theorem errorResult_wellFormed (e : JsError) :
    specResultWellFormed (errorResult e) := by
  constructor
  · exact ⟨"ERROR", errorResult_status e, by decide⟩
  · exact ⟨0, errorResult_confidence e, by norm_num⟩

theorem getAIClient_error_eq (env : Env) (st : ProcState) (e : JsError)
    (h : getAIClient env st = .error e) : e = apiKeyMissingError := by
  obtain ⟨ai⟩ := st
  obtain ⟨key⟩ := env
  rcases ai with _ | c
  · rcases key with _ | k
    · simp only [getAIClient] at h
      exact (Except.error.inj h).symm
    · by_cases hkk : k = ""
      · simp only [getAIClient] at h
        rw [if_pos hkk] at h
        exact (Except.error.inj h).symm
      · simp only [getAIClient] at h
        rw [if_neg hkk] at h
        cases h
  · simp only [getAIClient] at h
    cases h

theorem tryBody_state_of_client_ok (parse : String → Except JsError Json)
    (env : Env) (net : NetOutcome) (st st1 : ProcState) (c : GoogleGenAI)
    (d : String) (hc : getAIClient env st = .ok (c, st1)) :
    (tryBody parse env net st d).2.1 = st1 := by
  unfold tryBody
  rw [hc]
  rcases net with e | t
  · rfl
  · by_cases hf : isFalsyStr t = true
    · simp only [hf, if_true]
    · simp only [Bool.not_eq_true] at hf
      simp only [hf, Bool.false_eq_true, if_false]
      rcases hp : parse (t.getD ("")) with e | v <;> rfl

theorem tryBody_sent_of_client_ok (parse : String → Except JsError Json)
    (env : Env) (net : NetOutcome) (st st1 : ProcState) (c : GoogleGenAI)
    (d : String) (hc : getAIClient env st = .ok (c, st1)) :
    (tryBody parse env net st d).2.2 = some (buildRequest d) := by
  unfold tryBody
  rw [hc]
  rcases net with e | t
  · rfl
  · by_cases hf : isFalsyStr t = true
    · simp only [hf, if_true]
    · simp only [Bool.not_eq_true] at hf
      simp only [hf, Bool.false_eq_true, if_false]
      rcases hp : parse (t.getD ("")) with e | v <;> rfl

theorem tryBody_ok_inv (parse : String → Except JsError Json) (env : Env)
    (net : NetOutcome) (st st1 : ProcState) (d : String) (v : Json)
    (req : Option GenerateRequest)
    (h : tryBody parse env net st d = (.ok v, st1, req)) :
    ∃ t, net = .reply (some t) ∧ t ≠ "" ∧ parse t = .ok v := by
  unfold tryBody at h
  rcases hg : getAIClient env st with e | p <;> rw [hg] at h
  · cases (Prod.mk.injEq _ _ _ _ ▸ h).1
  · obtain ⟨c, st2⟩ := p
    rcases net with e | t
    · cases (Prod.mk.injEq _ _ _ _ ▸ h).1
    · by_cases hf : isFalsyStr t = true
      · simp only [hf, if_true] at h
        cases (Prod.mk.injEq _ _ _ _ ▸ h).1
      · simp only [Bool.not_eq_true] at hf
        simp only [hf, Bool.false_eq_true, if_false] at h
        rcases t with _ | u
        · simp [isFalsyStr] at hf
        · have hu : u ≠ "" := by simpa [isFalsyStr] using hf
          rcases hp : parse (Option.getD (some u) ("")) with e | w <;> rw [hp] at h
          · cases (Prod.mk.injEq _ _ _ _ ▸ h).1
          · have hw : w = v := Except.ok.inj (Prod.mk.injEq _ _ _ _ ▸ h).1
            refine ⟨u, rfl, hu, ?_⟩
            rw [← hw]
            simpa using hp

theorem analyzeFrame_state_eq (parse : String → Except JsError Json) (env : Env)
    (net : NetOutcome) (st : ProcState) (s : String)
    (hv : isInvalidFrame s = false) :
    (analyzeFrame parse env net st s).state =
      (tryBody parse env net st (cleanBase64 s)).2.1 := by
  rcases htb : tryBody parse env net st (cleanBase64 s) with ⟨out, st1, req⟩
  rcases out with e | v
  · by_cases hm : e.message = some ("Invalid frame captured (empty data)")
    · rw [analyzeFrame_tryBody_error_rethrown parse env net st st1 s e req hv htb hm]
    · rw [analyzeFrame_tryBody_error_converted parse env net st st1 s e req hv htb hm]
  · rw [analyzeFrame_tryBody_ok parse env net st st1 s v req hv htb]

theorem analyzeFrame_sent_eq (parse : String → Except JsError Json) (env : Env)
    (net : NetOutcome) (st : ProcState) (s : String)
    (hv : isInvalidFrame s = false) :
    (analyzeFrame parse env net st s).sent =
      (tryBody parse env net st (cleanBase64 s)).2.2 := by
  rcases htb : tryBody parse env net st (cleanBase64 s) with ⟨out, st1, req⟩
  rcases out with e | v
  · by_cases hm : e.message = some ("Invalid frame captured (empty data)")
    · rw [analyzeFrame_tryBody_error_rethrown parse env net st st1 s e req hv htb hm]
    · rw [analyzeFrame_tryBody_error_converted parse env net st st1 s e req hv htb hm]
  · rw [analyzeFrame_tryBody_ok parse env net st st1 s v req hv htb]

theorem analyzeFrame_state_cached (parse : String → Except JsError Json)
    (env : Env) (net : NetOutcome) (st : ProcState) (s : String)
    (c : GoogleGenAI) (hc : st.ai = some c) :
    (analyzeFrame parse env net st s).state = st := by
  by_cases hv : isInvalidFrame s = true
  · unfold analyzeFrame
    rw [hv]
    simp only [if_true]
  · simp only [Bool.not_eq_true] at hv
    rw [analyzeFrame_state_eq parse env net st s hv]
    exact tryBody_state_of_client_ok parse env net st st c (cleanBase64 s)
      (getAIClient_cached env st c hc)

theorem runCalls_cached (calls : List CallSpec) (st : ProcState)
    (c : GoogleGenAI) (hc : st.ai = some c) : runCalls calls st = st := by
  induction calls generalizing st with
  | nil => rfl
  | cons head tail ih =>
    unfold runCalls
    rw [analyzeFrame_state_cached head.parse head.env head.net st head.input c hc]
    exact ih st hc

/-! ### Claim theorems -/

/-- Claim C2: for every input string that is empty, equals the literal
placeholder "data:,", or is shorter than 100 characters, `analyzeFrame`
raises the invalid-input error (message "Invalid frame captured (empty
data)") before doing anything else: the memoized-client state is untouched
(no client is constructed) and no request is sent (no network call). -/
theorem analyzeFrame_invalid_input_raises (parse : String → Except JsError Json)
    (env : Env) (net : NetOutcome) (st : ProcState) (s : String)
    (h : s = "" ∨ s = "data:," ∨ s.length < 100) :
    analyzeFrame parse env net st s = ⟨.error invalidFrameError, st, none⟩ ∧
    invalidFrameError.message = some ("Invalid frame captured (empty data)") := by
  have hb : isInvalidFrame s = true := by
    rcases h with h | h | h <;> simp [isInvalidFrame, h]
  refine ⟨?_, rfl⟩
  unfold analyzeFrame
  rw [hb]
  simp only [if_true]

theorem analyzeFrame_invalid_input_raises_witness :
    (("data:," : String) = "" ∨ ("data:," : String) = "data:," ∨
      ("data:," : String).length < 100) ∧
    (analyzeFrame (fun _ => .error ⟨none⟩) ⟨none⟩ (.reply none) ⟨none⟩ "data:," =
        ⟨.error invalidFrameError, ⟨none⟩, none⟩ ∧
      invalidFrameError.message = some ("Invalid frame captured (empty data)")) :=
  ⟨Or.inr (Or.inl rfl),
   analyzeFrame_invalid_input_raises (fun _ => .error ⟨none⟩) ⟨none⟩ (.reply none)
     ⟨none⟩ "data:," (Or.inr (Or.inl rfl))⟩

/-- Claim C3: with no credential configured (`process.env.API_KEY` absent or
empty, hence no client ever cached), `analyzeFrame` on a valid image does not
throw: it returns the ERROR-status result carrying the missing-credential
message, with confidence 0, and no request is sent. -/
theorem analyzeFrame_missing_credential (parse : String → Except JsError Json)
    (env : Env) (net : NetOutcome) (s : String)
    (hkey : isFalsyStr env.apiKey = true) (hv : isInvalidFrame s = false) :
    analyzeFrame parse env net ⟨none⟩ s =
      ⟨.ok (errorResult apiKeyMissingError), ⟨none⟩, none⟩ ∧
    (errorResult apiKeyMissingError).getField ("status") = some (.str ("ERROR")) ∧
    (errorResult apiKeyMissingError).getField ("message") =
      some (.str ("API Key is missing. Please check Vercel settings.")) ∧
    (errorResult apiKeyMissingError).getField ("confidence") = some (.num 0) :=
  ⟨analyzeFrame_noKey_run parse env net s hkey hv, rfl, rfl, rfl⟩

theorem analyzeFrame_missing_credential_witness :
    isFalsyStr (Env.mk none).apiKey = true ∧
    isInvalidFrame sampleImage = false ∧
    analyzeFrame (fun _ => .error ⟨none⟩) ⟨none⟩ (.reply none) ⟨none⟩ sampleImage =
      ⟨.ok (errorResult apiKeyMissingError), ⟨none⟩, none⟩ :=
  ⟨rfl, sampleImage_valid,
   (analyzeFrame_missing_credential (fun _ => .error ⟨none⟩) ⟨none⟩ (.reply none)
      sampleImage rfl sampleImage_valid).1⟩

/-- Claim C7: the client accessor is idempotent and the handle a process-wide
singleton: with a cached handle, `getAIClient` returns that same handle and
the same state regardless of the environment (the credential is not re-read),
a single `analyzeFrame` call never changes a cached state, and no sequence of
`analyzeFrame` calls ever replaces a cached handle. -/
theorem getAIClient_singleton_idempotent :
    (∀ env st c, st.ai = some c → getAIClient env st = .ok (c, st)) ∧
    (∀ parse env net st s c, st.ai = some c →
      (analyzeFrame parse env net st s).state = st) ∧
    (∀ calls st c, st.ai = some c → runCalls calls st = st) :=
  ⟨getAIClient_cached,
   fun parse env net st s c hc => analyzeFrame_state_cached parse env net st s c hc,
   fun calls st c hc => runCalls_cached calls st c hc⟩

theorem getAIClient_singleton_idempotent_witness :
    getAIClient ⟨none⟩ ⟨some ⟨"key"⟩⟩ = .ok (⟨"key"⟩, ⟨some ⟨"key"⟩⟩) ∧
    (analyzeFrame (fun _ => .error ⟨none⟩) ⟨none⟩ (.reply none)
        ⟨some ⟨"key"⟩⟩ sampleImage).state = ⟨some ⟨"key"⟩⟩ ∧
    runCalls [⟨fun _ => .error ⟨none⟩, ⟨none⟩, .reply none, sampleImage⟩]
        ⟨some ⟨"key"⟩⟩ = ⟨some ⟨"key"⟩⟩ :=
  ⟨getAIClient_singleton_idempotent.1 ⟨none⟩ ⟨some ⟨"key"⟩⟩ ⟨"key"⟩ rfl,
   getAIClient_singleton_idempotent.2.1 (fun _ => .error ⟨none⟩) ⟨none⟩ (.reply none)
     ⟨some ⟨"key"⟩⟩ sampleImage ⟨"key"⟩ rfl,
   getAIClient_singleton_idempotent.2.2
     [⟨fun _ => .error ⟨none⟩, ⟨none⟩, .reply none, sampleImage⟩]
     ⟨some ⟨"key"⟩⟩ ⟨"key"⟩ rfl⟩

/-- Claim C8: with the credential unset (falsy) and the configuration
unchanged, two sequential `analyzeFrame` calls on the same valid image fail
identically: both return the missing-credential ERROR result, and neither
call changes the cached-client state (the second call starts from the state
the first one left behind). -/
theorem analyzeFrame_missing_credential_idempotent
    (parse1 parse2 : String → Except JsError Json) (env : Env)
    (net1 net2 : NetOutcome) (s : String)
    (hkey : isFalsyStr env.apiKey = true) (hv : isInvalidFrame s = false) :
    analyzeFrame parse1 env net1 ⟨none⟩ s =
      ⟨.ok (errorResult apiKeyMissingError), ⟨none⟩, none⟩ ∧
    analyzeFrame parse2 env net2 (analyzeFrame parse1 env net1 ⟨none⟩ s).state s =
      ⟨.ok (errorResult apiKeyMissingError), ⟨none⟩, none⟩ := by
  have h1 := analyzeFrame_noKey_run parse1 env net1 s hkey hv
  refine ⟨h1, ?_⟩
  rw [h1]
  exact analyzeFrame_noKey_run parse2 env net2 s hkey hv

theorem analyzeFrame_missing_credential_idempotent_witness :
    isFalsyStr (Env.mk (some (""))).apiKey = true ∧
    isInvalidFrame sampleImage = false ∧
    (analyzeFrame (fun _ => .error ⟨none⟩) ⟨some ("")⟩ (.reply none) ⟨none⟩ sampleImage =
        ⟨.ok (errorResult apiKeyMissingError), ⟨none⟩, none⟩ ∧
      analyzeFrame (fun _ => .ok .null) ⟨some ("")⟩ (.throw ⟨some ("boom")⟩)
          (analyzeFrame (fun _ => .error ⟨none⟩) ⟨some ("")⟩ (.reply none) ⟨none⟩
            sampleImage).state sampleImage =
        ⟨.ok (errorResult apiKeyMissingError), ⟨none⟩, none⟩) :=
  ⟨rfl, sampleImage_valid,
   analyzeFrame_missing_credential_idempotent (fun _ => .error ⟨none⟩)
     (fun _ => .ok .null) ⟨some ("")⟩ (.reply none) (.throw ⟨some ("boom")⟩)
     sampleImage rfl sampleImage_valid⟩

/-- Claim C4: whenever a request is issued for a valid input (the client is
obtainable), its inline payload is exactly `cleanBase64` of the input; and
`cleanBase64` removes exactly one optional leading data-URI header of the
form data:image/(png|jpeg|jpg);base64, — an input carrying no such header is
passed on byte-identical. -/
theorem analyzeFrame_sends_cleaned_payload :
    (∀ parse env net st st1 c s, isInvalidFrame s = false →
      getAIClient env st = .ok (c, st1) →
      (analyzeFrame parse env net st s).sent =
        some (buildRequest (cleanBase64 s))) ∧
    (∀ s, (∀ p ∈ dataUriHeaders, p.data.isPrefixOf s.data = false) →
      cleanBase64 s = s) ∧
    (∀ rest, cleanBase64 ("data:image/png;base64," ++ rest) = rest) ∧
    (∀ rest, cleanBase64 ("data:image/jpeg;base64," ++ rest) = rest) ∧
    (∀ rest, cleanBase64 ("data:image/jpg;base64," ++ rest) = rest) := by
  refine ⟨?_, cleanBase64_no_header, cleanBase64_png, cleanBase64_jpeg, cleanBase64_jpg⟩
  intro parse env net st st1 c s hv hc
  rw [analyzeFrame_sent_eq parse env net st s hv]
  exact tryBody_sent_of_client_ok parse env net st st1 c (cleanBase64 s) hc

theorem analyzeFrame_sends_cleaned_payload_witness :
    (isInvalidFrame sampleImage = false ∧
      getAIClient ⟨some ("key")⟩ ⟨none⟩ = .ok (⟨"key"⟩, ⟨some ⟨"key"⟩⟩) ∧
      (analyzeFrame (fun _ => .error ⟨none⟩) ⟨some ("key")⟩ (.reply none) ⟨none⟩
          sampleImage).sent = some (buildRequest (cleanBase64 sampleImage))) ∧
    ((∀ p ∈ dataUriHeaders, p.data.isPrefixOf sampleImage.data = false) ∧
      cleanBase64 sampleImage = sampleImage) ∧
    cleanBase64 ("data:image/jpeg;base64," ++ sampleImage) = sampleImage :=
  ⟨⟨sampleImage_valid, rfl,
    analyzeFrame_sends_cleaned_payload.1 (fun _ => .error ⟨none⟩) ⟨some ("key")⟩
      (.reply none) ⟨none⟩ ⟨some ⟨"key"⟩⟩ ⟨"key"⟩ sampleImage sampleImage_valid rfl⟩,
   ⟨by decide,
    analyzeFrame_sends_cleaned_payload.2.1 sampleImage (by decide)⟩,
   analyzeFrame_sends_cleaned_payload.2.2.2.1 sampleImage⟩

/-- Claim C5: for every non-empty response text that parses as JSON,
`analyzeFrame` returns the parsed value unchanged — whatever JSON value the
parse yields, with no further validation of fields, types or ranges. -/
theorem analyzeFrame_returns_parsed_json (parse : String → Except JsError Json)
    (env : Env) (st st1 : ProcState) (c : GoogleGenAI) (s t : String) (v : Json)
    (hv : isInvalidFrame s = false) (hc : getAIClient env st = .ok (c, st1))
    (ht : t ≠ "") (hp : parse t = .ok v) :
    (analyzeFrame parse env (.reply (some t)) st s).outcome = .ok v := by
  have htb := tryBody_parse parse env st st1 c (cleanBase64 s) t hc ht
  rw [hp] at htb
  rw [analyzeFrame_tryBody_ok parse env (.reply (some t)) st st1 s v
    (some (buildRequest (cleanBase64 s))) hv htb]

/-- The response text of the schema-conforming example. -/
def focusedText : String :=
  "\x7b\"status\":\"FOCUSED\",\"message\":\"很棒，继续保持\",\"confidence\":0.92\x7d"

/-- The JSON value the example text parses to. -/
def focusedJson : Json :=
  .obj [("status", .str ("FOCUSED")), ("message", .str ("很棒，继续保持")),
        ("confidence", .num 0.92)]

/-- A point model of JSON.parse: succeeds exactly on the example text. -/
def focusedParse : String → Except JsError Json :=
  fun t => if t = focusedText then .ok focusedJson
           else .error ⟨some ("SyntaxError: Unexpected token")⟩

theorem analyzeFrame_returns_parsed_json_witness :
    isInvalidFrame sampleImage = false ∧
    getAIClient ⟨some ("key")⟩ ⟨none⟩ = .ok (⟨"key"⟩, ⟨some ⟨"key"⟩⟩) ∧
    focusedText ≠ "" ∧
    focusedParse focusedText = .ok focusedJson ∧
    (analyzeFrame focusedParse ⟨some ("key")⟩ (.reply (some focusedText)) ⟨none⟩
        sampleImage).outcome = .ok focusedJson :=
  ⟨sampleImage_valid, rfl, by decide, by simp [focusedParse],
   analyzeFrame_returns_parsed_json focusedParse ⟨some ("key")⟩ ⟨none⟩
     ⟨some ⟨"key"⟩⟩ ⟨"key"⟩ sampleImage focusedText focusedJson sampleImage_valid
     rfl (by decide) (by simp [focusedParse])⟩

/-- Claim C6: if the service yields no text payload (absent or empty), the
call returns (does not throw) the ERROR-status result built from the
internal "No response from AI" error, with confidence 0. -/
theorem analyzeFrame_empty_response (parse : String → Except JsError Json)
    (env : Env) (st st1 : ProcState) (c : GoogleGenAI) (s : String)
    (t : Option String)
    (hv : isInvalidFrame s = false) (hc : getAIClient env st = .ok (c, st1))
    (ht : isFalsyStr t = true) :
    (analyzeFrame parse env (.reply t) st s).outcome =
      .ok (errorResult noResponseError) ∧
    (errorResult noResponseError).getField ("status") = some (.str ("ERROR")) ∧
    (errorResult noResponseError).getField ("confidence") = some (.num 0) := by
  refine ⟨?_, rfl, rfl⟩
  have htb := tryBody_reply_falsy parse env st st1 c (cleanBase64 s) t hc ht
  rw [analyzeFrame_tryBody_error_converted parse env (.reply t) st st1 s
    noResponseError (some (buildRequest (cleanBase64 s))) hv htb
    (by simp [noResponseError])]

theorem analyzeFrame_empty_response_witness :
    isInvalidFrame sampleImage = false ∧
    getAIClient ⟨some ("key")⟩ ⟨none⟩ = .ok (⟨"key"⟩, ⟨some ⟨"key"⟩⟩) ∧
    isFalsyStr (some ("")) = true ∧
    (analyzeFrame (fun _ => .error ⟨none⟩) ⟨some ("key")⟩ (.reply (some (""))) ⟨none⟩
        sampleImage).outcome = .ok (errorResult noResponseError) :=
  ⟨sampleImage_valid, rfl, rfl,
   (analyzeFrame_empty_response (fun _ => .error ⟨none⟩) ⟨some ("key")⟩ ⟨none⟩
      ⟨some ⟨"key"⟩⟩ ⟨"key"⟩ sampleImage (some ("")) sampleImage_valid rfl rfl).1⟩

/-- Counterexample to claim C1 as stated: the catch block discriminates by
message text, not by error identity.  Here the input passes validation and
the *network call* throws an error whose message happens to equal "Invalid
frame captured (empty data)": `analyzeFrame` re-raises it to the caller
instead of converting it to an ERROR-status result. -/
theorem analyzeFrame_spoofed_network_error_escapes :
    isInvalidFrame sampleImage = false ∧
    (analyzeFrame (fun _ => .error ⟨some ("SyntaxError: Unexpected token")⟩)
        ⟨some ("key")⟩ (.throw ⟨some ("Invalid frame captured (empty data)")⟩)
        ⟨none⟩ sampleImage).outcome =
      .error ⟨some ("Invalid frame captured (empty data)")⟩ := by
  refine ⟨sampleImage_valid, ?_⟩
  have hc : getAIClient ⟨some ("key")⟩ ⟨none⟩ = .ok (⟨"key"⟩, ⟨some ⟨"key"⟩⟩) := rfl
  have htb := tryBody_net_throw
    (fun _ => .error ⟨some ("SyntaxError: Unexpected token")⟩) ⟨some ("key")⟩
    ⟨none⟩ ⟨some ⟨"key"⟩⟩ ⟨"key"⟩ (cleanBase64 sampleImage)
    ⟨some ("Invalid frame captured (empty data)")⟩ hc
  rw [analyzeFrame_tryBody_error_rethrown
    (fun _ => .error ⟨some ("SyntaxError: Unexpected token")⟩) ⟨some ("key")⟩
    (.throw ⟨some ("Invalid frame captured (empty data)")⟩) ⟨none⟩
    ⟨some ⟨"key"⟩⟩ sampleImage ⟨some ("Invalid frame captured (empty data)")⟩
    (some (buildRequest (cleanBase64 sampleImage))) sampleImage_valid htb rfl]

/-- Claim C1 (amended): for every input that passes validation, any error
raised during client acquisition, the network request, or response parsing
whose message is not exactly "Invalid frame captured (empty data)" is caught
inside `analyzeFrame` and converted into the returned result
(status ERROR, message the error text or the fallback, confidence 0); such
an error is never thrown to the caller. -/
theorem analyzeFrame_converts_other_errors (parse : String → Except JsError Json)
    (env : Env) (net : NetOutcome) (st st1 : ProcState) (s : String) (e : JsError)
    (req : Option GenerateRequest)
    (hv : isInvalidFrame s = false)
    (htb : tryBody parse env net st (cleanBase64 s) = (.error e, st1, req))
    (hm : e.message ≠ some ("Invalid frame captured (empty data)")) :
    (analyzeFrame parse env net st s).outcome = .ok (errorResult e) ∧
    (errorResult e).getField ("status") = some (.str ("ERROR")) ∧
    (errorResult e).getField ("message") = some (.str (errMessageOrFallback e)) ∧
    (errorResult e).getField ("confidence") = some (.num 0) := by
  refine ⟨?_, rfl, rfl, rfl⟩
  rw [analyzeFrame_tryBody_error_converted parse env net st st1 s e req hv htb hm]

theorem analyzeFrame_converts_other_errors_witness :
    isInvalidFrame sampleImage = false ∧
    tryBody (fun _ => .ok .null) ⟨some ("key")⟩ (.throw ⟨some ("network down")⟩)
        ⟨none⟩ (cleanBase64 sampleImage) =
      (.error ⟨some ("network down")⟩, ⟨some ⟨"key"⟩⟩,
        some (buildRequest (cleanBase64 sampleImage))) ∧
    (⟨some ("network down")⟩ : JsError).message ≠
      some ("Invalid frame captured (empty data)") ∧
    (analyzeFrame (fun _ => .ok .null) ⟨some ("key")⟩
        (.throw ⟨some ("network down")⟩) ⟨none⟩ sampleImage).outcome =
      .ok (errorResult ⟨some ("network down")⟩) :=
  ⟨sampleImage_valid, rfl, by decide,
   (analyzeFrame_converts_other_errors (fun _ => .ok .null) ⟨some ("key")⟩
      (.throw ⟨some ("network down")⟩) ⟨none⟩ ⟨some ⟨"key"⟩⟩ sampleImage
      ⟨some ("network down")⟩ (some (buildRequest (cleanBase64 sampleImage)))
      sampleImage_valid rfl (by decide)).1⟩

/-- Claim C10: the catch block decides whether to re-raise by string equality
on the error message.  Here the input passes validation, the client is fine,
the response text is non-empty, and JSON parsing throws an error whose
message is exactly "Invalid frame captured (empty data)": `analyzeFrame`
re-raises it to the caller instead of converting it. -/
theorem analyzeFrame_rethrows_by_message_equality :
    isInvalidFrame sampleImage = false ∧
    (analyzeFrame (fun _ => .error ⟨some ("Invalid frame captured (empty data)")⟩)
        ⟨some ("key")⟩ (.reply (some ("not json"))) ⟨none⟩ sampleImage).outcome =
      .error ⟨some ("Invalid frame captured (empty data)")⟩ := by
  refine ⟨sampleImage_valid, ?_⟩
  have hc : getAIClient ⟨some ("key")⟩ ⟨none⟩ = .ok (⟨"key"⟩, ⟨some ⟨"key"⟩⟩) := rfl
  have htb := tryBody_parse
    (fun _ => .error ⟨some ("Invalid frame captured (empty data)")⟩)
    ⟨some ("key")⟩ ⟨none⟩ ⟨some ⟨"key"⟩⟩ ⟨"key"⟩ (cleanBase64 sampleImage)
    "not json" hc (by decide)
  rw [analyzeFrame_tryBody_error_rethrown
    (fun _ => .error ⟨some ("Invalid frame captured (empty data)")⟩)
    ⟨some ("key")⟩ (.reply (some ("not json"))) ⟨none⟩ ⟨some ⟨"key"⟩⟩ sampleImage
    ⟨some ("Invalid frame captured (empty data)")⟩
    (some (buildRequest (cleanBase64 sampleImage))) sampleImage_valid htb rfl]

/-- A response text whose JSON is syntactically valid but violates the
advertised result schema (status not in the enum, confidence above 1). -/
def badText : String :=
  "\x7b\"status\":\"BANANA\",\"message\":\"sure\",\"confidence\":5\x7d"

/-- The JSON value `badText` parses to. -/
def badJson : Json :=
  .obj [("status", .str ("BANANA")), ("message", .str ("sure")),
        ("confidence", .num 5)]

/-- A point model of JSON.parse: succeeds exactly on `badText`. -/
def badParse : String → Except JsError Json :=
  fun t => if t = badText then .ok badJson
           else .error ⟨some ("SyntaxError: Unexpected token")⟩

/-- Counterexample to claim C9 as stated: the parse path performs no
re-validation, so a service response whose JSON has status "BANANA" and
confidence 5 is returned as the result of `analyzeFrame` unchanged — a
returned result that violates the advertised status enum and the confidence
interval [0,1]. -/
theorem analyzeFrame_returns_out_of_schema_result :
    (analyzeFrame badParse ⟨some ("key")⟩ (.reply (some badText)) ⟨none⟩
        sampleImage).outcome = .ok badJson ∧
    ¬ specResultWellFormed badJson := by
  constructor
  · have hc : getAIClient ⟨some ("key")⟩ ⟨none⟩ = .ok (⟨"key"⟩, ⟨some ⟨"key"⟩⟩) := rfl
    have htb := tryBody_parse badParse ⟨some ("key")⟩ ⟨none⟩ ⟨some ⟨"key"⟩⟩ ⟨"key"⟩
      (cleanBase64 sampleImage) badText hc (by decide)
    have hbp : badParse badText = .ok badJson := by simp [badParse]
    rw [hbp] at htb
    rw [analyzeFrame_tryBody_ok badParse ⟨some ("key")⟩ (.reply (some badText))
      ⟨none⟩ ⟨some ⟨"key"⟩⟩ sampleImage badJson
      (some (buildRequest (cleanBase64 sampleImage))) sampleImage_valid htb]
  · rintro ⟨-, q, hq, -, h1⟩
    have hq5 : badJson.getField ("confidence") = some (.num 5) := rfl
    rw [hq5] at hq
    obtain rfl : (5 : ℚ) = q := Json.num.inj (Option.some.inj hq)
    norm_num at h1

/-- Claim C9 (amended): every value returned by `analyzeFrame` is either a
result built by the failure-mapping path — and those do have status ERROR
(in the advertised enum) and confidence 0 (in [0,1]) — or it is exactly the
JSON value the service response parsed to, returned without any validation
of its status or confidence. -/
theorem analyzeFrame_ok_results_characterized
    (parse : String → Except JsError Json) (env : Env) (net : NetOutcome)
    (st : ProcState) (s : String) (j : Json)
    (h : (analyzeFrame parse env net st s).outcome = .ok j) :
    (∃ e, j = errorResult e ∧ specResultWellFormed j) ∨
    (∃ t, net = .reply (some t) ∧ t ≠ "" ∧ parse t = .ok j) := by
  by_cases hv : isInvalidFrame s = true
  · unfold analyzeFrame at h
    rw [hv] at h
    simp at h
  · simp only [Bool.not_eq_true] at hv
    rcases htb : tryBody parse env net st (cleanBase64 s) with ⟨out, st1, req⟩
    rcases out with e | v
    · by_cases hm : e.message = some ("Invalid frame captured (empty data)")
      · rw [analyzeFrame_tryBody_error_rethrown parse env net st st1 s e req
          hv htb hm] at h
        simp at h
      · rw [analyzeFrame_tryBody_error_converted parse env net st st1 s e req
          hv htb hm] at h
        have hj : errorResult e = j := by simpa using h
        exact Or.inl ⟨e, hj.symm, hj ▸ errorResult_wellFormed e⟩
    · rw [analyzeFrame_tryBody_ok parse env net st st1 s v req hv htb] at h
      have hj : v = j := by simpa using h
      subst hj
      exact Or.inr (tryBody_ok_inv parse env net st st1 (cleanBase64 s) v req htb)

theorem analyzeFrame_ok_results_characterized_witness :
    (analyzeFrame (fun _ => .error ⟨none⟩) ⟨none⟩ (.reply none) ⟨none⟩
        sampleImage).outcome = .ok (errorResult apiKeyMissingError) ∧
    ((∃ e, errorResult apiKeyMissingError = errorResult e ∧
        specResultWellFormed (errorResult apiKeyMissingError)) ∨
      (∃ t, (NetOutcome.reply none : NetOutcome) = .reply (some t) ∧ t ≠ "" ∧
        (fun _ => Except.error (⟨none⟩ : JsError)) t =
          Except.ok (errorResult apiKeyMissingError))) :=
  have h : (analyzeFrame (fun _ => .error ⟨none⟩) ⟨none⟩ (.reply none) ⟨none⟩
      sampleImage).outcome = .ok (errorResult apiKeyMissingError) := by
    rw [analyzeFrame_noKey_run (fun _ => .error ⟨none⟩) ⟨none⟩ (.reply none)
      sampleImage rfl sampleImage_valid]
  ⟨h, analyzeFrame_ok_results_characterized (fun _ => .error ⟨none⟩) ⟨none⟩
    (.reply none) ⟨none⟩ sampleImage (errorResult apiKeyMissingError) h⟩
